import Mathlib

/-!
Verification of the beam model of `src/dxtbx/model/beam.h`.

The C++ code works on `double`; we embed it over the real numbers, so every
statement about tolerances and normalization is about the idealized
real-arithmetic semantics of the code.  `DXTBX_ASSERT` / `DXTBX_ERROR`
(from `dxtbx/error.h`, not part of the sources) throw exceptions; we model
every operation that can throw as a function into `Except String _`.
-/

namespace DxtbxModel

/-- A 3-vector of reals, embedding `scitbx::vec3<double>`. -/
@[ext]
structure Vec3 where
  x : ℝ
  y : ℝ
  z : ℝ

/-- Embeds `vec3::length()`: Euclidean length. -/
noncomputable def Vec3.length (v : Vec3) : ℝ :=
  Real.sqrt (v.x ^ 2 + v.y ^ 2 + v.z ^ 2)

/-- Scalar multiplication of a `vec3`. -/
def Vec3.smul (c : ℝ) (v : Vec3) : Vec3 :=
  ⟨c * v.x, c * v.y, c * v.z⟩

/-- Embeds `vec3::normalize()`: the vector divided by its length. -/
noncomputable def Vec3.normalize (v : Vec3) : Vec3 :=
  Vec3.smul (1 / v.length) v

/-- Unary negation of a `vec3`. -/
def Vec3.neg (v : Vec3) : Vec3 :=
  ⟨-v.x, -v.y, -v.z⟩

/-- Dot product of two `vec3`s. -/
def Vec3.dot (a b : Vec3) : ℝ :=
  a.x * b.x + a.y * b.y + a.z * b.z

/-- Per-axis absolute-difference sum (the L1 metric used by `Beam::operator==`
on scan-point wave vectors). -/
def l1diff (a b : Vec3) : ℝ :=
  |a.x - b.x| + |a.y - b.y| + |a.z - b.z|

/-- Modelled from the spec: `angle_safe` of `model_helpers.h` (not among the
sources) — normalizes both inputs, clamps the dot product of the normalized
vectors to [-1, 1], and takes the inverse cosine. -/
noncomputable def angle_safe (a b : Vec3) : ℝ :=
  Real.arccos (max (-1) (min 1 (Vec3.dot a.normalize b.normalize)))

/-- The probe enumeration of `beam.h`. -/
inductive Probe where
  | xray
  | electron
  | neutron
deriving DecidableEq, Repr

/-- State of a monochromatic `Beam` object: one field per C++ data member. -/
structure Beam where
  direction : Vec3
  divergence : ℝ
  sigma_divergence : ℝ
  polarization_normal : Vec3
  polarization_fraction : ℝ
  flux : ℝ
  transmission : ℝ
  probe : Probe
  sample_to_source_distance : ℝ
  wavelength : ℝ
  s0_at_scan_points : List Vec3

/-- The default `Beam()` constructor. -/
def Beam.default : Beam where
  direction := ⟨0, 0, 1⟩
  divergence := 0
  sigma_divergence := 0
  polarization_normal := ⟨0, 1, 0⟩
  polarization_fraction := 0.999
  flux := 0
  transmission := 1
  probe := .xray
  sample_to_source_distance := 0
  wavelength := 0
  s0_at_scan_points := []

/-- The `Beam(vec3 s0)` constructor: asserts `|s0| > 0`, stores
`wavelength = 1/|s0|` and `direction = -s0.normalize()`. -/
noncomputable def Beam.mk_s0 (s0 : Vec3) : Except String Beam :=
  if 0 < s0.length then
    .ok { Beam.default with
          wavelength := 1 / s0.length
          direction := (s0.normalize).neg }
  else
    .error "DXTBX_ASSERT(s0.length() > 0) failure"

/-- The ten-argument `Beam` constructor: asserts only `|direction| > 0` and
stores `sample_to_source_distance` without any check. -/
noncomputable def Beam.mk_full (direction : Vec3) (wavelength divergence
    sigma_divergence : ℝ) (polarization_normal : Vec3)
    (polarization_fraction flux transmission : ℝ) (probe : Probe)
    (sample_to_source_distance : ℝ) : Except String Beam :=
  if 0 < direction.length then
    .ok { direction := direction.normalize
          divergence := divergence
          sigma_divergence := sigma_divergence
          polarization_normal := polarization_normal
          polarization_fraction := polarization_fraction
          flux := flux
          transmission := transmission
          probe := probe
          sample_to_source_distance := sample_to_source_distance
          wavelength := wavelength
          s0_at_scan_points := [] }
  else
    .error "DXTBX_ASSERT(direction.length() > 0) failure"

/-- Embeds `Beam::set_direction`: asserts nonzero length, stores the normalized
vector. -/
noncomputable def Beam.set_direction (b : Beam) (direction : Vec3) :
    Except String Beam :=
  if 0 < direction.length then
    .ok { b with direction := direction.normalize }
  else
    .error "DXTBX_ASSERT(direction.length() > 0) failure"

/-- Embeds `Beam::set_wavelength`: stores the value with no check. -/
def Beam.set_wavelength (b : Beam) (wavelength : ℝ) : Beam :=
  { b with wavelength := wavelength }

/-- Embeds `Beam::get_s0`: asserts `wavelength != 0`, returns
`-direction * 1.0 / wavelength`. -/
noncomputable def Beam.get_s0 (b : Beam) : Except String Vec3 :=
  if b.wavelength = 0 then
    .error "DXTBX_ASSERT(wavelength_ != 0.0) failure"
  else
    .ok (Vec3.smul (1 / b.wavelength) b.direction.neg)

/-- Embeds `Beam::set_s0`: asserts `|s0| > 0`, stores `direction = -s0.normalize()`
and `wavelength = 1/|s0|`. -/
noncomputable def Beam.set_s0 (b : Beam) (s0 : Vec3) : Except String Beam :=
  if 0 < s0.length then
    .ok { b with
          direction := (s0.normalize).neg
          wavelength := 1 / s0.length }
  else
    .error "DXTBX_ASSERT(s0.length() > 0) failure"

/-- Embeds `Beam::get_unit_s0`: returns `-direction`, never fails. -/
def Beam.get_unit_s0 (b : Beam) : Vec3 :=
  b.direction.neg

/-- Embeds `Beam::set_unit_s0`: asserts `|unit_s0| > 0`, stores
`direction = -(unit_s0.normalize())`, touching nothing else. -/
noncomputable def Beam.set_unit_s0 (b : Beam) (unit_s0 : Vec3) :
    Except String Beam :=
  if 0 < unit_s0.length then
    .ok { b with direction := (unit_s0.normalize).neg }
  else
    .error "DXTBX_ASSERT(unit_s0.length() > 0) failure"

/-- Embeds `Beam::set_polarization_normal`: stores the vector verbatim — no
zero-length check and no normalization. -/
def Beam.set_polarization_normal (b : Beam) (polarization_normal : Vec3) :
    Beam :=
  { b with polarization_normal := polarization_normal }

/-- Embeds `Beam::set_sample_to_source_distance`: asserts the value is `>= 0`. -/
noncomputable def Beam.set_sample_to_source_distance (b : Beam) (d : ℝ) :
    Except String Beam :=
  if 0 ≤ d then
    .ok { b with sample_to_source_distance := d }
  else
    .error "DXTBX_ASSERT(sample_to_source_distance >= 0.) failure"

/-- State of a `PolychromaticBeam` object: the supported fields (the
inherited `wavelength_` and scan-point list are unobservable — every
accessor for them throws). -/
structure PBeam where
  direction : Vec3
  divergence : ℝ
  sigma_divergence : ℝ
  polarization_normal : Vec3
  polarization_fraction : ℝ
  flux : ℝ
  transmission : ℝ
  probe : Probe
  sample_to_source_distance : ℝ

/-- The default `PolychromaticBeam()` constructor (note polarization
fraction 0.5, and direction goes through `set_direction`, hence is
normalized). -/
noncomputable def PBeam.default : PBeam where
  direction := Vec3.normalize ⟨0, 0, 1⟩
  divergence := 0
  sigma_divergence := 0
  polarization_normal := ⟨0, 1, 0⟩
  polarization_fraction := 0.5
  flux := 0
  transmission := 1
  probe := .xray
  sample_to_source_distance := 0

/-- The `PolychromaticBeam(direction, sample_to_source_distance)`
constructor: asserts `|direction| > 0`, then routes the distance through
`set_sample_to_source_distance`, which asserts it is `>= 0`. -/
noncomputable def PBeam.mk_dir_dist (direction : Vec3)
    (sample_to_source_distance : ℝ) : Except String PBeam :=
  if 0 < direction.length then
    if 0 ≤ sample_to_source_distance then
      .ok { direction := direction.normalize
            divergence := 0
            sigma_divergence := 0
            polarization_normal := ⟨0, 1, 0⟩
            polarization_fraction := 0.999
            flux := 0
            transmission := 1
            probe := .xray
            sample_to_source_distance := sample_to_source_distance }
    else
      .error "DXTBX_ASSERT(sample_to_source_distance >= 0.) failure"
  else
    .error "DXTBX_ASSERT(direction.length() > 0) failure"

/-- A `BeamBase&`: dynamic dispatch between the two variants. -/
inductive AnyBeam where
  | mono (b : Beam)
  | poly (p : PBeam)

/-- Virtual `get_sample_to_source_direction` (total for both variants). -/
def AnyBeam.get_sample_to_source_direction : AnyBeam → Vec3
  | .mono b => b.direction
  | .poly p => p.direction

/-- Virtual `get_divergence` (total for both variants). -/
def AnyBeam.get_divergence : AnyBeam → ℝ
  | .mono b => b.divergence
  | .poly p => p.divergence

/-- Virtual `get_sigma_divergence` (total for both variants). -/
def AnyBeam.get_sigma_divergence : AnyBeam → ℝ
  | .mono b => b.sigma_divergence
  | .poly p => p.sigma_divergence

/-- Virtual `get_polarization_normal` (total for both variants). -/
def AnyBeam.get_polarization_normal : AnyBeam → Vec3
  | .mono b => b.polarization_normal
  | .poly p => p.polarization_normal

/-- Virtual `get_polarization_fraction` (total for both variants). -/
def AnyBeam.get_polarization_fraction : AnyBeam → ℝ
  | .mono b => b.polarization_fraction
  | .poly p => p.polarization_fraction

/-- Virtual `get_flux` (total for both variants). -/
def AnyBeam.get_flux : AnyBeam → ℝ
  | .mono b => b.flux
  | .poly p => p.flux

/-- Virtual `get_transmission` (total for both variants). -/
def AnyBeam.get_transmission : AnyBeam → ℝ
  | .mono b => b.transmission
  | .poly p => p.transmission

/-- Virtual `get_probe` (total for both variants). -/
def AnyBeam.get_probe : AnyBeam → Probe
  | .mono b => b.probe
  | .poly p => p.probe

/-- Virtual `get_sample_to_source_distance` (total for both variants). -/
def AnyBeam.get_sample_to_source_distance : AnyBeam → ℝ
  | .mono b => b.sample_to_source_distance
  | .poly p => p.sample_to_source_distance

/-- Virtual `get_wavelength`: the polychromatic override throws. -/
def AnyBeam.get_wavelength : AnyBeam → Except String ℝ
  | .mono b => .ok b.wavelength
  | .poly _ => .error "PolychromaticBeam has no fixed wavelength"

/-- Virtual `set_wavelength`: the polychromatic override throws. -/
def AnyBeam.set_wavelength : AnyBeam → ℝ → Except String AnyBeam
  | .mono b, w => .ok (.mono (b.set_wavelength w))
  | .poly _, _ => .error "PolychromaticBeam has no fixed wavelength"

/-- Virtual `get_s0`: the polychromatic override throws. -/
noncomputable def AnyBeam.get_s0 : AnyBeam → Except String Vec3
  | .mono b => b.get_s0
  | .poly _ => .error "PolychromaticBeam has no fixed s0"

/-- Virtual `set_s0`: the polychromatic override throws. -/
noncomputable def AnyBeam.set_s0 : AnyBeam → Vec3 → Except String AnyBeam
  | .mono b, v => (b.set_s0 v).map .mono
  | .poly _, _ => .error "PolychromaticBeam has no fixed s0"

/-- Virtual `get_unit_s0`: `PolychromaticBeam` does not override it, so the
inherited `Beam::get_unit_s0` runs and returns `-direction` for both
variants — it never throws. -/
def AnyBeam.get_unit_s0 : AnyBeam → Vec3
  | .mono b => b.get_unit_s0
  | .poly p => p.direction.neg

/-- Virtual `set_unit_s0`: `PolychromaticBeam` does not override it, so the
inherited `Beam::set_unit_s0` runs for both variants (asserting only that
the argument is nonzero). -/
noncomputable def AnyBeam.set_unit_s0 : AnyBeam → Vec3 → Except String AnyBeam
  | .mono b, v => (b.set_unit_s0 v).map .mono
  | .poly p, v =>
      if 0 < v.length then
        .ok (.poly { p with direction := (v.normalize).neg })
      else
        .error "DXTBX_ASSERT(unit_s0.length() > 0) failure"

/-- Virtual `get_num_scan_points`: the polychromatic override throws. -/
def AnyBeam.get_num_scan_points : AnyBeam → Except String ℕ
  | .mono b => .ok b.s0_at_scan_points.length
  | .poly _ => .error "PolychromaticBeam has no fixed s0"

/-- Virtual `get_s0_at_scan_points`: the polychromatic override throws. -/
def AnyBeam.get_s0_at_scan_points : AnyBeam → Except String (List Vec3)
  | .mono b => .ok b.s0_at_scan_points
  | .poly _ => .error "PolychromaticBeam has no fixed s0"

/-- Virtual `set_s0_at_scan_points`: the polychromatic override throws. -/
def AnyBeam.set_s0_at_scan_points : AnyBeam → List Vec3 → Except String AnyBeam
  | .mono b, vs => .ok (.mono { b with s0_at_scan_points := vs })
  | .poly _, _ => .error "PolychromaticBeam has no fixed s0"

/-- Virtual `get_s0_at_scan_point` (monochromatic side asserts the index is
in range); the polychromatic override throws. -/
def AnyBeam.get_s0_at_scan_point : AnyBeam → ℕ → Except String Vec3
  | .mono b, i =>
      if h : i < b.s0_at_scan_points.length then
        .ok (b.s0_at_scan_points.get ⟨i, h⟩)
      else
        .error "DXTBX_ASSERT(index < s0_at_scan_points_.size()) failure"
  | .poly _, _ => .error "PolychromaticBeam has no fixed s0"

/-- Virtual `reset_scan_points`: the polychromatic override throws. -/
def AnyBeam.reset_scan_points : AnyBeam → Except String AnyBeam
  | .mono b => .ok (.mono { b with s0_at_scan_points := [] })
  | .poly _ => .error "PolychromaticBeam has no fixed s0"

/-- The scan-point loop of `Beam::operator==`: walks the left-hand list with
a running index `j` into the right-hand operand, returning `false` as soon
as a per-axis absolute-difference sum exceeds `1e-6` and propagating any
error of the virtual `get_s0_at_scan_point`. -/
noncomputable def scanCheckDyn (rhs : AnyBeam) : List Vec3 → ℕ →
    Except String Bool
  | [], _ => .ok true
  | p :: ps, j =>
      (rhs.get_s0_at_scan_point j).bind fun q =>
        if 1e-6 < l1diff p q then .ok false
        else scanCheckDyn rhs ps (j + 1)

/-- The static-field chain of `Beam::operator==`, in C++ evaluation order:
the `angle_safe` direction test short-circuits before the (possibly
throwing) virtual `get_wavelength` is called. -/
noncomputable def Beam.staticEqDyn (a : Beam) (rhs : AnyBeam) :
    Except String Bool :=
  if |angle_safe a.direction rhs.get_sample_to_source_direction| ≤ 1e-6 then
    (rhs.get_wavelength).bind fun w =>
      .ok (decide (|a.wavelength - w| ≤ 1e-6)
        && decide (|a.divergence - rhs.get_divergence| ≤ 1e-6)
        && decide (|a.sigma_divergence - rhs.get_sigma_divergence| ≤ 1e-6)
        && decide
             (|angle_safe a.polarization_normal rhs.get_polarization_normal|
               ≤ 1e-6)
        && decide
             (|a.polarization_fraction - rhs.get_polarization_fraction|
               ≤ 1e-6)
        && decide (|a.flux - rhs.get_flux| ≤ 1e-6)
        && decide (|a.transmission - rhs.get_transmission| ≤ 1e-6)
        && decide
             (|a.sample_to_source_distance - rhs.get_sample_to_source_distance|
               ≤ 1e-6)
        && decide (a.probe = rhs.get_probe))
  else
    .ok false

/-- Embeds `Beam::operator==(const BeamBase &rhs)`: the scan-varying checks run
only when the left operand has scan points; then the static-field chain. -/
noncomputable def Beam.eqOpDyn (a : Beam) (rhs : AnyBeam) :
    Except String Bool :=
  if 0 < a.s0_at_scan_points.length then
    (rhs.get_num_scan_points).bind fun n =>
      if a.s0_at_scan_points.length ≠ n then .ok false
      else
        (scanCheckDyn rhs a.s0_at_scan_points 0).bind fun r =>
          if r = false then .ok false
          else a.staticEqDyn rhs
  else
    a.staticEqDyn rhs

/-- Embeds `PolychromaticBeam::operator==(const BeamBase &rhs)`: compares the nine
supported fields; every getter it calls is total for both variants, so it
returns a plain boolean. -/
noncomputable def PBeam.eqOp (p : PBeam) (rhs : AnyBeam) : Bool :=
  decide (|angle_safe p.direction rhs.get_sample_to_source_direction| ≤ 1e-6)
  && decide (|p.divergence - rhs.get_divergence| ≤ 1e-6)
  && decide (|p.sigma_divergence - rhs.get_sigma_divergence| ≤ 1e-6)
  && decide
       (|angle_safe p.polarization_normal rhs.get_polarization_normal|
         ≤ 1e-6)
  && decide
       (|p.polarization_fraction - rhs.get_polarization_fraction| ≤ 1e-6)
  && decide (|p.flux - rhs.get_flux| ≤ 1e-6)
  && decide (|p.transmission - rhs.get_transmission| ≤ 1e-6)
  && decide
       (|p.sample_to_source_distance - rhs.get_sample_to_source_distance|
         ≤ 1e-6)
  && decide (p.probe = rhs.get_probe)

/-- The extended `PolychromaticBeam::is_similar_to` overload: its body
compares direction, polarization normal and fraction, flux, transmission,
sample-to-source distance and probe — the `divergence_tolerance` and
`sigma_divergence_tolerance` parameters are accepted but never used. -/
noncomputable def PBeam.is_similar_to_ext (p : PBeam) (rhs : AnyBeam)
    (direction_tolerance polarization_normal_tolerance
     polarization_fraction_tolerance divergence_tolerance
     sigma_divergence_tolerance flux_tolerance transmission_tolerance
     sample_to_source_tolerance : ℝ) : Bool :=
  decide (|angle_safe p.direction rhs.get_sample_to_source_direction|
           ≤ direction_tolerance)
  && decide
       (|angle_safe p.polarization_normal rhs.get_polarization_normal|
         ≤ polarization_normal_tolerance)
  && decide
       (|p.polarization_fraction - rhs.get_polarization_fraction|
         ≤ polarization_fraction_tolerance)
  && decide (|p.flux - rhs.get_flux| ≤ flux_tolerance)
  && decide (|p.transmission - rhs.get_transmission|
              ≤ transmission_tolerance)
  && decide
       (|p.sample_to_source_distance - rhs.get_sample_to_source_distance|
         ≤ sample_to_source_tolerance)
  && decide (p.probe = rhs.get_probe)

/-- The nine tolerance parameters of the extended `Beam::is_similar_to`
overload. -/
structure Tol where
  wavelength : ℝ
  direction : ℝ
  polarization_normal : ℝ
  polarization_fraction : ℝ
  divergence : ℝ
  sigma_divergence : ℝ
  flux : ℝ
  transmission : ℝ
  sample_to_source : ℝ

/-- Componentwise order on tolerance assignments. -/
def Tol.Le (t u : Tol) : Prop :=
  t.wavelength ≤ u.wavelength ∧ t.direction ≤ u.direction
    ∧ t.polarization_normal ≤ u.polarization_normal
    ∧ t.polarization_fraction ≤ u.polarization_fraction
    ∧ t.divergence ≤ u.divergence
    ∧ t.sigma_divergence ≤ u.sigma_divergence
    ∧ t.flux ≤ u.flux ∧ t.transmission ≤ u.transmission
    ∧ t.sample_to_source ≤ u.sample_to_source

/-- All tolerances zero. -/
def Tol.zero : Tol := ⟨0, 0, 0, 0, 0, 0, 0, 0, 0⟩

/-- The `1e-6` defaults of the extended overload. -/
noncomputable def Tol.defaults : Tol :=
  ⟨1e-6, 1e-6, 1e-6, 1e-6, 1e-6, 1e-6, 1e-6, 1e-6, 1e-6⟩

/-- The per-scan-point loop of `Beam::is_similar_to`: each corresponding
pair of wave vectors must agree in direction (angle of the normalized
vectors) within `direction_tolerance` and in derived wavelength `1/|s0|`
within `wavelength_tolerance`. -/
noncomputable def scanSimOk (ps qs : List Vec3)
    (wavelength_tolerance direction_tolerance : ℝ) : Bool :=
  (ps.zip qs).all fun pq =>
    decide (|angle_safe pq.1.normalize pq.2.normalize| ≤ direction_tolerance)
    && decide (|1 / pq.1.length - 1 / pq.2.length| ≤ wavelength_tolerance)

/-- The extended `Beam::is_similar_to` overload (between two monochromatic
beams, on which every getter it calls is total): scan-point counts must
match, the per-scan-point checks must pass, then the static-field chain
(which, unlike `operator==`, has no probe comparison). -/
noncomputable def Beam.is_similar_to (a b : Beam) (t : Tol) : Bool :=
  if a.s0_at_scan_points.length ≠ b.s0_at_scan_points.length then false
  else
    scanSimOk a.s0_at_scan_points b.s0_at_scan_points t.wavelength t.direction
    && decide (|angle_safe a.direction b.direction| ≤ t.direction)
    && decide (|a.wavelength - b.wavelength| ≤ t.wavelength)
    && decide (|angle_safe a.polarization_normal b.polarization_normal|
                ≤ t.polarization_normal)
    && decide (|a.polarization_fraction - b.polarization_fraction|
                ≤ t.polarization_fraction)
    && decide (|a.divergence - b.divergence| ≤ t.divergence)
    && decide (|a.sigma_divergence - b.sigma_divergence|
                ≤ t.sigma_divergence)
    && decide (|a.flux - b.flux| ≤ t.flux)
    && decide (|a.transmission - b.transmission| ≤ t.transmission)
    && decide (|a.sample_to_source_distance - b.sample_to_source_distance|
                ≤ t.sample_to_source)

/-! ### Helper lemmas about the vector arithmetic -/

theorem Vec3.length_nonneg (v : Vec3) : 0 ≤ v.length :=
  Real.sqrt_nonneg _

theorem Vec3.sq_length (v : Vec3) :
    v.length ^ 2 = v.x ^ 2 + v.y ^ 2 + v.z ^ 2 := by
  have h : 0 ≤ v.x ^ 2 + v.y ^ 2 + v.z ^ 2 := by positivity
  simpa [Vec3.length] using Real.sq_sqrt h

theorem Vec3.length_pos_of_ne_zero (v : Vec3) (h : v ≠ ⟨0, 0, 0⟩) :
    0 < v.length := by
  rcases lt_or_eq_of_le v.length_nonneg with hlt | heq
  · exact hlt
  · exfalso
    apply h
    have hsq : v.x ^ 2 + v.y ^ 2 + v.z ^ 2 = 0 := by
      rw [← Vec3.sq_length, ← heq]; ring
    have hx : v.x = 0 := by nlinarith [sq_nonneg v.x, sq_nonneg v.y, sq_nonneg v.z]
    have hy : v.y = 0 := by nlinarith [sq_nonneg v.x, sq_nonneg v.y, sq_nonneg v.z]
    have hz : v.z = 0 := by nlinarith [sq_nonneg v.x, sq_nonneg v.y, sq_nonneg v.z]
    exact Vec3.ext hx hy hz

theorem Vec3.length_smul (c : ℝ) (v : Vec3) :
    (Vec3.smul c v).length = |c| * v.length := by
  unfold Vec3.length Vec3.smul
  have h1 : (c * v.x) ^ 2 + (c * v.y) ^ 2 + (c * v.z) ^ 2
      = c ^ 2 * (v.x ^ 2 + v.y ^ 2 + v.z ^ 2) := by ring
  rw [h1, Real.sqrt_mul (sq_nonneg c), Real.sqrt_sq_eq_abs]

theorem Vec3.length_neg (v : Vec3) : v.neg.length = v.length := by
  unfold Vec3.length Vec3.neg
  ring_nf

theorem Vec3.neg_neg (v : Vec3) : v.neg.neg = v := by
  unfold Vec3.neg
  ext <;> simp

theorem Vec3.length_normalize (v : Vec3) (h : 0 < v.length) :
    v.normalize.length = 1 := by
  unfold Vec3.normalize
  rw [Vec3.length_smul]
  rw [abs_of_nonneg (by positivity)]
  field_simp

theorem Vec3.normalize_dot_self (v : Vec3) (h : 0 < v.length) :
    Vec3.dot v.normalize v.normalize = 1 := by
  unfold Vec3.normalize Vec3.smul Vec3.dot
  have hsq : v.length ^ 2 = v.x ^ 2 + v.y ^ 2 + v.z ^ 2 := v.sq_length
  have hne : v.length ≠ 0 := ne_of_gt h
  field_simp
  nlinarith [hsq]

theorem angle_safe_self (v : Vec3) (h : 0 < v.length) :
    angle_safe v v = 0 := by
  unfold angle_safe
  rw [Vec3.normalize_dot_self v h]
  norm_num

theorem angle_safe_nonneg (a b : Vec3) : 0 ≤ angle_safe a b :=
  Real.arccos_nonneg _

theorem abs_angle_safe (a b : Vec3) : |angle_safe a b| = angle_safe a b :=
  abs_of_nonneg (angle_safe_nonneg a b)

theorem length_e3 : (Vec3.length ⟨0, 0, 1⟩) = 1 := by
  unfold Vec3.length
  norm_num

theorem length_e2 : (Vec3.length ⟨0, 1, 0⟩) = 1 := by
  unfold Vec3.length
  norm_num

theorem length_e1 : (Vec3.length ⟨1, 0, 0⟩) = 1 := by
  unfold Vec3.length
  norm_num

theorem normalize_e3 : (Vec3.normalize ⟨0, 0, 1⟩) = ⟨0, 0, 1⟩ := by
  unfold Vec3.normalize
  rw [length_e3]
  unfold Vec3.smul
  norm_num

theorem normalize_e1 : (Vec3.normalize ⟨1, 0, 0⟩) = ⟨1, 0, 0⟩ := by
  unfold Vec3.normalize
  rw [length_e1]
  unfold Vec3.smul
  norm_num

/-- The angle between the +z and +x unit vectors is a right angle. -/
theorem angle_safe_e3_e1 : angle_safe ⟨0, 0, 1⟩ ⟨1, 0, 0⟩ = Real.pi / 2 := by
  unfold angle_safe
  rw [normalize_e3, normalize_e1]
  unfold Vec3.dot
  norm_num [Real.arccos_zero]

/-- The tolerance `1e-6` is below a right angle. -/
theorem angle_tol_lt_half_pi : (1e-6 : ℝ) < Real.pi / 2 := by
  have h := Real.pi_gt_three
  norm_num
  linarith

theorem Vec3.smul_length_normalize (v : Vec3) (h : v.length ≠ 0) :
    Vec3.smul v.length v.normalize = v := by
  unfold Vec3.normalize Vec3.smul
  ext <;> (simp only []; field_simp)

/-! ### Claim theorems -/

/-- C1: for every nonzero 3-vector `v` and monochromatic beam `b`,
`set_s0 v` succeeds and the subsequent `get_s0` returns exactly `v`
(the stored `direction = -unit(v)` and `wavelength = 1/|v|` reproduce `v`
as `-direction/wavelength`). -/
theorem set_s0_get_s0_round_trip (b : Beam) (v : Vec3)
    (hv : v ≠ ⟨0, 0, 0⟩) :
    ∃ b', b.set_s0 v = .ok b' ∧ b'.get_s0 = .ok v := by
  have hl : 0 < v.length := v.length_pos_of_ne_zero hv
  have hne : v.length ≠ 0 := ne_of_gt hl
  refine ⟨{ b with
            direction := (v.normalize).neg
            wavelength := 1 / v.length }, ?_, ?_⟩
  · unfold Beam.set_s0
    rw [if_pos hl]
  · unfold Beam.get_s0
    have hwne : (1 : ℝ) / v.length ≠ 0 := by positivity
    simp only [if_neg hwne, Vec3.neg_neg, one_div_one_div]
    rw [Vec3.smul_length_normalize v hne]

/-- C1 witness: the round trip at `v = (0, 0, 1)` on the default beam. -/
theorem set_s0_get_s0_round_trip_witness :
    ∃ b', Beam.default.set_s0 ⟨0, 0, 1⟩ = .ok b'
      ∧ b'.get_s0 = .ok ⟨0, 0, 1⟩ :=
  set_s0_get_s0_round_trip Beam.default ⟨0, 0, 1⟩
    (by simp [Vec3.mk.injEq])

/-- C5 (amended): `set_direction`, `set_s0` and `set_unit_s0` reject
zero-length vectors and store a unit-length vector (the normalized input,
negated for the two s0 setters); `set_polarization_normal` performs no
validation at all and stores its argument verbatim. -/
theorem direction_setters_normalize (b : Beam) (v : Vec3)
    (hv : 0 < v.length) :
    (∃ b', b.set_direction v = .ok b' ∧ b'.direction = v.normalize
        ∧ b'.direction.length = 1)
  ∧ (∃ b', b.set_s0 v = .ok b' ∧ b'.direction = (v.normalize).neg
        ∧ b'.direction.length = 1)
  ∧ (∃ b', b.set_unit_s0 v = .ok b' ∧ b'.direction = (v.normalize).neg
        ∧ b'.direction.length = 1)
  ∧ (b.set_polarization_normal v).polarization_normal = v
  ∧ ∀ w : Vec3, w.length = 0 →
      (∃ m, b.set_direction w = .error m)
      ∧ (∃ m, b.set_s0 w = .error m)
      ∧ (∃ m, b.set_unit_s0 w = .error m) := by
  have h1 : (v.normalize).length = 1 := v.length_normalize hv
  have h1n : ((v.normalize).neg).length = 1 := by
    rw [Vec3.length_neg]; exact h1
  refine ⟨⟨{ b with direction := v.normalize }, ?_, rfl, h1⟩,
    ⟨{ b with
       direction := (v.normalize).neg
       wavelength := 1 / v.length }, ?_, rfl, h1n⟩,
    ⟨{ b with direction := (v.normalize).neg }, ?_, rfl, h1n⟩, rfl, ?_⟩
  · unfold Beam.set_direction; rw [if_pos hv]
  · unfold Beam.set_s0; rw [if_pos hv]
  · unfold Beam.set_unit_s0; rw [if_pos hv]
  · intro w hw
    have hnot : ¬ 0 < w.length := by rw [hw]; exact lt_irrefl 0
    refine ⟨⟨"DXTBX_ASSERT(direction.length() > 0) failure", ?_⟩,
      ⟨"DXTBX_ASSERT(s0.length() > 0) failure", ?_⟩,
      ⟨"DXTBX_ASSERT(unit_s0.length() > 0) failure", ?_⟩⟩
    · unfold Beam.set_direction; rw [if_neg hnot]
    · unfold Beam.set_s0; rw [if_neg hnot]
    · unfold Beam.set_unit_s0; rw [if_neg hnot]

/-- C5 counterexample: `set_polarization_normal` accepts the zero vector —
it stores it unchanged (no error is raised, and the stored vector is not
unit length), contradicting the claim that every direction-like setter
rejects zero-length vectors. -/
theorem set_polarization_normal_zero_accepted :
    (Beam.default.set_polarization_normal ⟨0, 0, 0⟩).polarization_normal
      = ⟨0, 0, 0⟩
  ∧ (Beam.default.set_polarization_normal
      ⟨0, 0, 0⟩).polarization_normal.length ≠ 1 := by
  constructor
  · rfl
  · show (Vec3.length ⟨0, 0, 0⟩) ≠ 1
    unfold Vec3.length
    norm_num

/-- C5 witness: the three validating setters at `v = (0, 0, 1)`. -/
theorem direction_setters_normalize_witness :
    (∃ b', Beam.default.set_direction ⟨0, 0, 1⟩ = .ok b'
        ∧ b'.direction = Vec3.normalize ⟨0, 0, 1⟩
        ∧ b'.direction.length = 1)
  ∧ (∃ b', Beam.default.set_s0 ⟨0, 0, 1⟩ = .ok b'
        ∧ b'.direction = (Vec3.normalize ⟨0, 0, 1⟩).neg
        ∧ b'.direction.length = 1)
  ∧ (∃ b', Beam.default.set_unit_s0 ⟨0, 0, 1⟩ = .ok b'
        ∧ b'.direction = (Vec3.normalize ⟨0, 0, 1⟩).neg
        ∧ b'.direction.length = 1)
  ∧ (Beam.default.set_polarization_normal
      ⟨0, 0, 1⟩).polarization_normal = ⟨0, 0, 1⟩
  ∧ ∀ w : Vec3, w.length = 0 →
      (∃ m, Beam.default.set_direction w = .error m)
      ∧ (∃ m, Beam.default.set_s0 w = .error m)
      ∧ (∃ m, Beam.default.set_unit_s0 w = .error m) :=
  direction_setters_normalize Beam.default ⟨0, 0, 1⟩
    (by rw [length_e3]; norm_num)

/-- C6 (amended): `set_sample_to_source_distance` (and the polychromatic
constructor that routes through it) rejects a negative distance and stores
a nonnegative one unchanged; but the ten-argument monochromatic constructor
stores its `sample_to_source_distance` argument without any check, so a
negative distance can be stored through that path. -/
theorem sample_to_source_distance_guard (b : Beam) (v : Vec3) (d : ℝ)
    (hv : 0 < v.length) :
    (d < 0 → (∃ m, b.set_sample_to_source_distance d = .error m)
        ∧ (∃ m, PBeam.mk_dir_dist v d = .error m))
  ∧ (0 ≤ d → b.set_sample_to_source_distance d
        = .ok { b with sample_to_source_distance := d }) := by
  constructor
  · intro hd
    have hnot : ¬ 0 ≤ d := not_le.mpr hd
    constructor
    · exact ⟨_, by unfold Beam.set_sample_to_source_distance; rw [if_neg hnot]⟩
    · exact ⟨_, by unfold PBeam.mk_dir_dist; rw [if_pos hv, if_neg hnot]⟩
  · intro hd
    unfold Beam.set_sample_to_source_distance
    rw [if_pos hd]

/-- C6 counterexample: the ten-argument monochromatic constructor accepts
`sample_to_source_distance = -1` and stores it, violating the claimed
`≥ 0` invariant. -/
theorem mk_full_stores_negative_distance :
    Except.map (fun b => b.sample_to_source_distance)
      (Beam.mk_full ⟨0, 0, 1⟩ 1 0 0 ⟨0, 1, 0⟩ 0.999 0 1 .xray (-1))
      = .ok (-1) := by
  unfold Beam.mk_full
  rw [if_pos (by rw [length_e3]; norm_num)]
  rfl

/-- C6 witness: the guard at distance `-1` (rejected) and `1` (stored). -/
theorem sample_to_source_distance_guard_witness :
    ((∃ m, Beam.default.set_sample_to_source_distance (-1) = .error m)
      ∧ (∃ m, PBeam.mk_dir_dist ⟨0, 0, 1⟩ (-1) = .error m))
  ∧ Beam.default.set_sample_to_source_distance 1
      = .ok { Beam.default with sample_to_source_distance := 1 } :=
  ⟨(sample_to_source_distance_guard Beam.default ⟨0, 0, 1⟩ (-1)
      (by rw [length_e3]; norm_num)).1 (by norm_num),
   (sample_to_source_distance_guard Beam.default ⟨0, 0, 1⟩ 1
      (by rw [length_e3]; norm_num)).2 (by norm_num)⟩

/-- C7: `set_unit_s0 u` (for nonzero `u`) succeeds, sets the direction to
`-unit(u)` and changes no other field — in particular the wavelength is
exactly the one before the call. -/
theorem set_unit_s0_only_direction (b : Beam) (u : Vec3)
    (hu : u ≠ ⟨0, 0, 0⟩) :
    ∃ b', b.set_unit_s0 u = .ok b'
      ∧ b'.direction = (u.normalize).neg
      ∧ b'.wavelength = b.wavelength
      ∧ b'.divergence = b.divergence
      ∧ b'.sigma_divergence = b.sigma_divergence
      ∧ b'.polarization_normal = b.polarization_normal
      ∧ b'.polarization_fraction = b.polarization_fraction
      ∧ b'.flux = b.flux
      ∧ b'.transmission = b.transmission
      ∧ b'.probe = b.probe
      ∧ b'.sample_to_source_distance = b.sample_to_source_distance
      ∧ b'.s0_at_scan_points = b.s0_at_scan_points := by
  have hl : 0 < u.length := u.length_pos_of_ne_zero hu
  refine ⟨{ b with direction := (u.normalize).neg }, ?_,
    rfl, rfl, rfl, rfl, rfl, rfl, rfl, rfl, rfl, rfl, rfl⟩
  unfold Beam.set_unit_s0
  rw [if_pos hl]

/-- C7 witness: `set_unit_s0 (1,0,0)` on a beam of wavelength 2 yields
direction `-unit((1,0,0)) = (-1,0,0)` and wavelength still 2. -/
theorem set_unit_s0_only_direction_witness :
    ∃ b', (Beam.default.set_wavelength 2).set_unit_s0 ⟨1, 0, 0⟩ = .ok b'
      ∧ b'.direction = ⟨-1, 0, 0⟩
      ∧ b'.wavelength = 2 := by
  obtain ⟨b', h1, h2, h3, -⟩ :=
    set_unit_s0_only_direction (Beam.default.set_wavelength 2) ⟨1, 0, 0⟩
      (by simp [Vec3.mk.injEq])
  refine ⟨b', h1, ?_, h3⟩
  rw [h2, normalize_e1]
  unfold Vec3.neg
  norm_num [Vec3.mk.injEq]

/-- C9 counterexample: the default monochromatic constructor stores
wavelength `0`, so the claimed `> 0` invariant on every constructed beam
fails at the default-constructed beam. -/
theorem default_beam_wavelength_not_positive :
    ¬ (0 < Beam.default.wavelength) := by
  show ¬ ((0 : ℝ) < 0)
  norm_num

/-- C9 (amended): wavelength positivity is only enforced on the wave-vector
paths — the `s0` constructor and `set_s0` always produce a positive
wavelength `1/|s0|` — while `set_wavelength` stores any real unchecked and
the default constructor stores wavelength `0`. -/
theorem wavelength_positive_on_s0_paths (b : Beam) (v : Vec3) (w : ℝ)
    (hv : 0 < v.length) :
    (∃ b', Beam.mk_s0 v = .ok b' ∧ 0 < b'.wavelength)
  ∧ (∃ b', b.set_s0 v = .ok b' ∧ 0 < b'.wavelength)
  ∧ (b.set_wavelength w).wavelength = w
  ∧ Beam.default.wavelength = 0 := by
  have hpos : 0 < 1 / v.length := by positivity
  refine ⟨⟨{ Beam.default with
             wavelength := 1 / v.length
             direction := (v.normalize).neg }, ?_, hpos⟩,
    ⟨{ b with
       direction := (v.normalize).neg
       wavelength := 1 / v.length }, ?_, hpos⟩, rfl, rfl⟩
  · unfold Beam.mk_s0; rw [if_pos hv]
  · unfold Beam.set_s0; rw [if_pos hv]

/-- C9 witness: the `s0` paths at `v = (0, 0, 1)`. -/
theorem wavelength_positive_on_s0_paths_witness :
    (∃ b', Beam.mk_s0 ⟨0, 0, 1⟩ = .ok b' ∧ 0 < b'.wavelength)
  ∧ (∃ b', Beam.default.set_s0 ⟨0, 0, 1⟩ = .ok b' ∧ 0 < b'.wavelength)
  ∧ (Beam.default.set_wavelength (-3)).wavelength = -3
  ∧ Beam.default.wavelength = 0 :=
  wavelength_positive_on_s0_paths Beam.default ⟨0, 0, 1⟩ (-3)
    (by rw [length_e3]; norm_num)

theorem scanSimOk_monotone (ps qs : List Vec3) (wt wt' dt dt' : ℝ)
    (hw : wt ≤ wt') (hd : dt ≤ dt') (h : scanSimOk ps qs wt dt = true) :
    scanSimOk ps qs wt' dt' = true := by
  unfold scanSimOk at h ⊢
  simp only [List.all_eq_true, Bool.and_eq_true, decide_eq_true_eq] at h ⊢
  intro pq hpq
  obtain ⟨hda, hwa⟩ := h pq hpq
  exact ⟨le_trans hda hd, le_trans hwa hw⟩

/-- C8: the extended `is_similar_to` is monotonic in its tolerance
arguments — a `true` result under componentwise-smaller tolerances implies
a `true` result under larger ones (in particular, similarity at all-zero
tolerances implies similarity at the `1e-6` defaults). -/
theorem is_similar_to_monotone (a b : Beam) (t u : Tol) (hle : Tol.Le t u)
    (h : a.is_similar_to b t = true) : a.is_similar_to b u = true := by
  obtain ⟨h1, h2, h3, h4, h5, h6, h7, h8, h9⟩ := hle
  unfold Beam.is_similar_to at h ⊢
  by_cases hlen : a.s0_at_scan_points.length ≠ b.s0_at_scan_points.length
  · rw [if_pos hlen] at h
    exact absurd h (by simp)
  · rw [if_neg hlen] at h ⊢
    simp only [Bool.and_eq_true, decide_eq_true_eq] at h ⊢
    obtain ⟨⟨⟨⟨⟨⟨⟨⟨⟨hscan, hdir⟩, hwl⟩, hpn⟩, hpf⟩, hdv⟩, hsg⟩, hfl⟩,
      htr⟩, hss⟩ := h
    exact ⟨⟨⟨⟨⟨⟨⟨⟨⟨scanSimOk_monotone _ _ _ _ _ _ h1 h2 hscan,
      le_trans hdir h2⟩, le_trans hwl h1⟩, le_trans hpn h3⟩,
      le_trans hpf h4⟩, le_trans hdv h5⟩, le_trans hsg h6⟩,
      le_trans hfl h7⟩, le_trans htr h8⟩, le_trans hss h9⟩

/-- C8 witness: the default beam is similar to itself at all-zero
tolerances, hence (by monotonicity) at the `1e-6` defaults. -/
theorem is_similar_to_monotone_witness :
    Beam.default.is_similar_to Beam.default Tol.defaults = true := by
  have hd3 : angle_safe (⟨0, 0, 1⟩ : Vec3) ⟨0, 0, 1⟩ = 0 :=
    angle_safe_self _ (by rw [length_e3]; norm_num)
  have hd2 : angle_safe (⟨0, 1, 0⟩ : Vec3) ⟨0, 1, 0⟩ = 0 :=
    angle_safe_self _ (by rw [length_e2]; norm_num)
  refine is_similar_to_monotone Beam.default Beam.default Tol.zero
    Tol.defaults (by norm_num [Tol.Le, Tol.zero, Tol.defaults]) ?_
  unfold Beam.is_similar_to scanSimOk Beam.default Tol.zero
  norm_num [hd3, hd2]

theorem scanCheckDyn_mono_bound (b : Beam) :
    ∀ (ps : List Vec3) (j : ℕ),
      scanCheckDyn (.mono b) ps j = .ok true →
      ∀ pq ∈ ps.zip (b.s0_at_scan_points.drop j),
        l1diff pq.1 pq.2 ≤ 1e-6 := by
  intro ps
  induction ps with
  | nil =>
    intro j h pq hpq
    simp at hpq
  | cons p ps ih =>
    intro j h pq hpq
    simp only [scanCheckDyn, AnyBeam.get_s0_at_scan_point] at h
    by_cases hj : j < b.s0_at_scan_points.length
    · rw [dif_pos hj] at h
      simp only [Except.bind] at h
      by_cases hl : 1e-6 < l1diff p (b.s0_at_scan_points.get ⟨j, hj⟩)
      · rw [if_pos hl] at h
        cases h
      · rw [if_neg hl] at h
        rw [List.drop_eq_getElem_cons hj] at hpq
        rcases List.mem_cons.mp hpq with hpq | hpq
        · rw [hpq]
          exact not_lt.mp hl
        · exact ih (j + 1) h pq hpq
    · rw [dif_neg hj] at h
      cases h

/-- C3 (amended): `Beam::operator==` runs the scan-point check only when
the LEFT operand has a non-empty scan-point list; in that case a `true`
result requires equal scan-point counts and a per-axis absolute-difference
sum of at most `1e-6` at every corresponding pair of scan-point wave
vectors.  (A left operand without scan points can still compare equal to a
right operand that has them.) -/
theorem eq_scan_point_conditions (a b : Beam)
    (hne : a.s0_at_scan_points ≠ [])
    (h : a.eqOpDyn (.mono b) = .ok true) :
    a.s0_at_scan_points.length = b.s0_at_scan_points.length
  ∧ ∀ pq ∈ a.s0_at_scan_points.zip b.s0_at_scan_points,
      l1diff pq.1 pq.2 ≤ 1e-6 := by
  have hpos : 0 < a.s0_at_scan_points.length := List.length_pos.mpr hne
  unfold Beam.eqOpDyn at h
  rw [if_pos hpos] at h
  simp only [AnyBeam.get_num_scan_points, Except.bind] at h
  by_cases hl : a.s0_at_scan_points.length ≠ b.s0_at_scan_points.length
  · rw [if_pos hl] at h
    cases h
  · rw [if_neg hl] at h
    push_neg at hl
    refine ⟨hl, ?_⟩
    rcases hsc : scanCheckDyn (.mono b) a.s0_at_scan_points 0 with m | r
    · rw [hsc] at h
      simp [Except.bind] at h
    · rw [hsc] at h
      cases r
      · simp [Except.bind] at h
      · have hall := scanCheckDyn_mono_bound b a.s0_at_scan_points 0 hsc
        simpa using hall

/-- C3 counterexample: a default beam (no scan points) on the left compares
equal to a beam carrying one scan point on the right — the scan-point
condition is never consulted when only the right operand has scan points,
refuting "a beam with no scan points never compares equal to one with
scan points". -/
theorem eq_true_despite_rhs_scan_points :
    Beam.default.s0_at_scan_points = []
  ∧ ({ Beam.default with s0_at_scan_points := [⟨1, 0, 0⟩] } :
      Beam).s0_at_scan_points.length = 1
  ∧ Beam.default.eqOpDyn
      (.mono { Beam.default with s0_at_scan_points := [⟨1, 0, 0⟩] })
      = .ok true := by
  have hd3 : angle_safe (⟨0, 0, 1⟩ : Vec3) ⟨0, 0, 1⟩ = 0 :=
    angle_safe_self _ (by rw [length_e3]; norm_num)
  have hd2 : angle_safe (⟨0, 1, 0⟩ : Vec3) ⟨0, 1, 0⟩ = 0 :=
    angle_safe_self _ (by rw [length_e2]; norm_num)
  refine ⟨rfl, rfl, ?_⟩
  simp only [Beam.eqOpDyn, Beam.staticEqDyn,
    AnyBeam.get_sample_to_source_direction, AnyBeam.get_wavelength,
    AnyBeam.get_divergence, AnyBeam.get_sigma_divergence,
    AnyBeam.get_polarization_normal, AnyBeam.get_polarization_fraction,
    AnyBeam.get_flux, AnyBeam.get_transmission,
    AnyBeam.get_sample_to_source_distance, AnyBeam.get_probe,
    Beam.default, Except.bind]
  norm_num [hd3, hd2]

/-- C3 witness: the amended conditions hold at a beam with one scan point
compared against itself. -/
theorem eq_scan_point_conditions_witness :
    ({ Beam.default with s0_at_scan_points := [⟨1, 0, 0⟩] } :
        Beam).s0_at_scan_points.length
      = ({ Beam.default with s0_at_scan_points := [⟨1, 0, 0⟩] } :
        Beam).s0_at_scan_points.length
  ∧ ∀ pq ∈ ({ Beam.default with s0_at_scan_points := [⟨1, 0, 0⟩] } :
        Beam).s0_at_scan_points.zip
        ({ Beam.default with s0_at_scan_points := [⟨1, 0, 0⟩] } :
        Beam).s0_at_scan_points,
      l1diff pq.1 pq.2 ≤ 1e-6 := by
  have hd3 : angle_safe (⟨0, 0, 1⟩ : Vec3) ⟨0, 0, 1⟩ = 0 :=
    angle_safe_self _ (by rw [length_e3]; norm_num)
  have hd2 : angle_safe (⟨0, 1, 0⟩ : Vec3) ⟨0, 1, 0⟩ = 0 :=
    angle_safe_self _ (by rw [length_e2]; norm_num)
  refine eq_scan_point_conditions _ _ (by simp) ?_
  simp only [Beam.eqOpDyn, Beam.staticEqDyn, scanCheckDyn,
    AnyBeam.get_s0_at_scan_point,
    AnyBeam.get_sample_to_source_direction, AnyBeam.get_wavelength,
    AnyBeam.get_divergence, AnyBeam.get_sigma_divergence,
    AnyBeam.get_polarization_normal, AnyBeam.get_polarization_fraction,
    AnyBeam.get_flux, AnyBeam.get_transmission,
    AnyBeam.get_sample_to_source_distance, AnyBeam.get_probe,
    AnyBeam.get_num_scan_points, Beam.default, Except.bind, l1diff]
  norm_num [hd3, hd2]

/-- The direction of the default polychromatic beam is `(0, 0, 1)`. -/
theorem pdefault_direction : PBeam.default.direction = ⟨0, 0, 1⟩ := by
  unfold PBeam.default
  exact normalize_e3

/-- C10 (amended): `mono == poly` raises the polychromatic
unsupported-operation error whenever the monochromatic side has scan
points (at `get_num_scan_points`) or the direction comparison passes (at
`get_wavelength`); it returns `false` without error only when the
monochromatic side has no scan points and the direction comparison fails,
because the `&&` chain short-circuits before reading the wavelength.
`poly == mono` always returns a boolean, since every getter it calls is
total on both variants. -/
theorem mono_poly_eq_dispatch (a : Beam) (p : PBeam) :
    (a.s0_at_scan_points.length = 0 →
        1e-6 < |angle_safe a.direction p.direction| →
        a.eqOpDyn (.poly p) = .ok false)
  ∧ (0 < a.s0_at_scan_points.length →
        a.eqOpDyn (.poly p) = .error "PolychromaticBeam has no fixed s0")
  ∧ (a.s0_at_scan_points.length = 0 →
        |angle_safe a.direction p.direction| ≤ 1e-6 →
        a.eqOpDyn (.poly p)
          = .error "PolychromaticBeam has no fixed wavelength")
  ∧ (∀ b : Beam, PBeam.eqOp p (.mono b) = true
        ∨ PBeam.eqOp p (.mono b) = false) := by
  refine ⟨?_, ?_, ?_, fun b => Bool.eq_false_or_eq_true _⟩
  · intro hlen hangle
    unfold Beam.eqOpDyn
    rw [if_neg (by rw [hlen]; exact lt_irrefl 0)]
    unfold Beam.staticEqDyn
    simp only [AnyBeam.get_sample_to_source_direction]
    rw [if_neg (not_le.mpr hangle)]
  · intro hlen
    unfold Beam.eqOpDyn
    rw [if_pos hlen]
    rfl
  · intro hlen hangle
    unfold Beam.eqOpDyn
    rw [if_neg (by rw [hlen]; exact lt_irrefl 0)]
    unfold Beam.staticEqDyn
    simp only [AnyBeam.get_sample_to_source_direction]
    rw [if_pos hangle]
    rfl

/-- C10 counterexample: a monochromatic beam with no scan points whose
direction differs from the polychromatic operand compares `==` to it as
plain `false` — no unsupported-operation error is raised, because the
direction conjunct short-circuits before `get_wavelength` is called. -/
theorem mono_poly_eq_returns_false :
    Beam.default.eqOpDyn
      (.poly { PBeam.default with direction := ⟨1, 0, 0⟩ }) = .ok false := by
  unfold Beam.eqOpDyn
  rw [if_neg (by norm_num [Beam.default])]
  unfold Beam.staticEqDyn
  have h2 : ¬ (|angle_safe Beam.default.direction
      (AnyBeam.get_sample_to_source_direction
        (.poly { PBeam.default with direction := ⟨1, 0, 0⟩ }))| ≤ 1e-6) := by
    show ¬ (|angle_safe ⟨0, 0, 1⟩ ⟨1, 0, 0⟩| ≤ 1e-6)
    rw [abs_angle_safe, angle_safe_e3_e1]
    exact not_le.mpr angle_tol_lt_half_pi
  rw [if_neg h2]

/-- C10 witness: all three dispatch outcomes at concrete beams — `false`
without error on direction mismatch, the no-fixed-s0 error when the
monochromatic side has scan points, and the no-fixed-wavelength error when
the direction comparison passes. -/
theorem mono_poly_eq_dispatch_witness :
    ({ Beam.default with direction := ⟨1, 0, 0⟩ } : Beam).eqOpDyn
        (.poly PBeam.default) = .ok false
  ∧ ({ Beam.default with s0_at_scan_points := [⟨1, 0, 0⟩] } : Beam).eqOpDyn
        (.poly PBeam.default)
      = .error "PolychromaticBeam has no fixed s0"
  ∧ Beam.default.eqOpDyn (.poly PBeam.default)
      = .error "PolychromaticBeam has no fixed wavelength" := by
  refine ⟨(mono_poly_eq_dispatch _ PBeam.default).1 rfl ?_,
    (mono_poly_eq_dispatch _ PBeam.default).2.1 (by norm_num),
    (mono_poly_eq_dispatch _ PBeam.default).2.2.1 rfl ?_⟩
  · show (1e-6 : ℝ) < |angle_safe ⟨1, 0, 0⟩ PBeam.default.direction|
    rw [pdefault_direction]
    have h : angle_safe (⟨1, 0, 0⟩ : Vec3) ⟨0, 0, 1⟩ = Real.pi / 2 := by
      unfold angle_safe
      rw [normalize_e3, normalize_e1]
      unfold Vec3.dot
      norm_num [Real.arccos_zero]
    rw [h, abs_of_nonneg (by positivity)]
    exact angle_tol_lt_half_pi
  · show |angle_safe (⟨0, 0, 1⟩ : Vec3) PBeam.default.direction| ≤ 1e-6
    rw [pdefault_direction,
      angle_safe_self _ (by rw [length_e3]; norm_num)]
    norm_num

/-- C4 (amended): polychromatic strict equality compares all nine supported
fields (each scalar within `1e-6`) — in particular it is `false` whenever
divergence or sigma-divergence differ by more than `1e-6` — but the
extended similarity overload compares only direction, polarization
normal/fraction, flux, transmission, sample-to-source distance and probe:
it ignores both beams' divergence and sigma-divergence entirely, despite
accepting tolerances for them. -/
theorem poly_similarity_ignores_divergence (p q : PBeam)
    (dt pnt pft divt sigt ft trt st d1 d2 s1 s2 : ℝ) :
    (PBeam.is_similar_to_ext
        { p with divergence := d1, sigma_divergence := s1 }
        (.poly { q with divergence := d2, sigma_divergence := s2 })
        dt pnt pft divt sigt ft trt st
      = PBeam.is_similar_to_ext p (.poly q) dt pnt pft divt sigt ft trt st)
  ∧ (1e-6 < |p.divergence - q.divergence| → PBeam.eqOp p (.poly q) = false)
  ∧ (1e-6 < |p.sigma_divergence - q.sigma_divergence| →
        PBeam.eqOp p (.poly q) = false) := by
  refine ⟨rfl, ?_, ?_⟩
  · intro h
    unfold PBeam.eqOp
    simp only [AnyBeam.get_divergence]
    rw [decide_eq_false (not_le.mpr h)]
    simp
  · intro h
    unfold PBeam.eqOp
    simp only [AnyBeam.get_sigma_divergence]
    rw [decide_eq_false (not_le.mpr h)]
    simp

/-- C4 counterexample: two polychromatic beams identical except for a
divergence gap of 1000 are still similar under the extended overload with
all tolerances at the `1e-6` default — refuting the claim that the
similarity comparison bounds the divergence difference by its tolerance. -/
theorem poly_similar_despite_divergence_gap :
    PBeam.is_similar_to_ext PBeam.default
      (.poly { PBeam.default with divergence := 1000 })
      1e-6 1e-6 1e-6 1e-6 1e-6 1e-6 1e-6 1e-6 = true
  ∧ (1e-6 : ℝ) < |PBeam.default.divergence
      - ({ PBeam.default with divergence := 1000 } : PBeam).divergence| := by
  constructor
  · have hd : angle_safe PBeam.default.direction PBeam.default.direction
        = 0 := by
      rw [pdefault_direction]
      exact angle_safe_self _ (by rw [length_e3]; norm_num)
    have hp : angle_safe (⟨0, 1, 0⟩ : Vec3) ⟨0, 1, 0⟩ = 0 :=
      angle_safe_self _ (by rw [length_e2]; norm_num)
    unfold PBeam.is_similar_to_ext
    simp only [AnyBeam.get_sample_to_source_direction,
      AnyBeam.get_polarization_normal, AnyBeam.get_polarization_fraction,
      AnyBeam.get_flux, AnyBeam.get_transmission,
      AnyBeam.get_sample_to_source_distance, AnyBeam.get_probe]
    simp only [Bool.and_eq_true, decide_eq_true_eq]
    rw [hd, show PBeam.default.polarization_normal = (⟨0, 1, 0⟩ : Vec3)
        from rfl, hp]
    norm_num
  · show (1e-6 : ℝ) < |(0 : ℝ) - 1000|
    norm_num

/-- C4 witness: the divergence-invariance of the extended similarity at
concrete divergence values, and a concrete equality failure on a
divergence gap. -/
theorem poly_similarity_ignores_divergence_witness :
    (PBeam.is_similar_to_ext
        { PBeam.default with divergence := 5, sigma_divergence := 7 }
        (.poly { PBeam.default with divergence := 9, sigma_divergence := 11 })
        1e-6 1e-6 1e-6 1e-6 1e-6 1e-6 1e-6 1e-6
      = PBeam.is_similar_to_ext PBeam.default (.poly PBeam.default)
          1e-6 1e-6 1e-6 1e-6 1e-6 1e-6 1e-6 1e-6)
  ∧ PBeam.eqOp PBeam.default
      (.poly { PBeam.default with divergence := 1000 }) = false
  ∧ PBeam.eqOp PBeam.default
      (.poly { PBeam.default with sigma_divergence := 1000 }) = false :=
  ⟨(poly_similarity_ignores_divergence PBeam.default PBeam.default
      1e-6 1e-6 1e-6 1e-6 1e-6 1e-6 1e-6 1e-6 5 9 7 11).1,
   (poly_similarity_ignores_divergence PBeam.default
      { PBeam.default with divergence := 1000 }
      1e-6 1e-6 1e-6 1e-6 1e-6 1e-6 1e-6 1e-6 0 0 0 0).2.1
      (by show (1e-6 : ℝ) < |(0 : ℝ) - 1000|; norm_num),
   (poly_similarity_ignores_divergence PBeam.default
      { PBeam.default with sigma_divergence := 1000 }
      1e-6 1e-6 1e-6 1e-6 1e-6 1e-6 1e-6 1e-6 0 0 0 0).2.2
      (by show (1e-6 : ℝ) < |(0 : ℝ) - 1000|; norm_num)⟩

/-- C2 (amended): on a polychromatic beam, the wavelength, wave-vector and
scan-point operations that `PolychromaticBeam` overrides all fail with the
unsupported-operation error — but `get_unit_s0` and `set_unit_s0` are NOT
overridden: the inherited monochromatic implementations run, returning the
negated stored direction and updating the direction respectively. -/
theorem poly_unsupported_operations (p : PBeam) (v : Vec3) (w : ℝ)
    (vs : List Vec3) (i : ℕ) (hv : 0 < v.length) :
    AnyBeam.get_wavelength (.poly p)
        = .error "PolychromaticBeam has no fixed wavelength"
  ∧ AnyBeam.set_wavelength (.poly p) w
        = .error "PolychromaticBeam has no fixed wavelength"
  ∧ AnyBeam.get_s0 (.poly p) = .error "PolychromaticBeam has no fixed s0"
  ∧ AnyBeam.set_s0 (.poly p) v = .error "PolychromaticBeam has no fixed s0"
  ∧ AnyBeam.get_num_scan_points (.poly p)
        = .error "PolychromaticBeam has no fixed s0"
  ∧ AnyBeam.get_s0_at_scan_points (.poly p)
        = .error "PolychromaticBeam has no fixed s0"
  ∧ AnyBeam.get_s0_at_scan_point (.poly p) i
        = .error "PolychromaticBeam has no fixed s0"
  ∧ AnyBeam.set_s0_at_scan_points (.poly p) vs
        = .error "PolychromaticBeam has no fixed s0"
  ∧ AnyBeam.reset_scan_points (.poly p)
        = .error "PolychromaticBeam has no fixed s0"
  ∧ AnyBeam.get_unit_s0 (.poly p) = p.direction.neg
  ∧ AnyBeam.set_unit_s0 (.poly p) v
        = .ok (.poly { p with direction := (v.normalize).neg }) := by
  refine ⟨rfl, rfl, rfl, rfl, rfl, rfl, rfl, rfl, rfl, rfl, ?_⟩
  simp only [AnyBeam.set_unit_s0]
  rw [if_pos hv]

/-- C2 counterexample: `get_unit_s0` on a default polychromatic beam
returns a plain value, `(0, 0, -1)`, and `set_unit_s0` succeeds on a
nonzero vector — neither fails with an unsupported-operation error. -/
theorem poly_get_unit_s0_returns_value :
    AnyBeam.get_unit_s0 (.poly PBeam.default) = ⟨0, 0, -1⟩
  ∧ AnyBeam.set_unit_s0 (.poly PBeam.default) ⟨1, 0, 0⟩
      = .ok (.poly { PBeam.default with
                     direction := (Vec3.normalize ⟨1, 0, 0⟩).neg }) := by
  constructor
  · show (PBeam.default.direction).neg = ⟨0, 0, -1⟩
    rw [pdefault_direction]
    unfold Vec3.neg
    norm_num [Vec3.mk.injEq]
  · simp only [AnyBeam.set_unit_s0]
    rw [if_pos (by rw [length_e1]; norm_num)]

/-- C2 witness: the operation table at the default polychromatic beam and
`v = (0, 0, 1)`. -/
theorem poly_unsupported_operations_witness :
    AnyBeam.get_wavelength (.poly PBeam.default)
        = .error "PolychromaticBeam has no fixed wavelength"
  ∧ AnyBeam.set_wavelength (.poly PBeam.default) 1
        = .error "PolychromaticBeam has no fixed wavelength"
  ∧ AnyBeam.get_s0 (.poly PBeam.default)
        = .error "PolychromaticBeam has no fixed s0"
  ∧ AnyBeam.set_s0 (.poly PBeam.default) ⟨0, 0, 1⟩
        = .error "PolychromaticBeam has no fixed s0"
  ∧ AnyBeam.get_num_scan_points (.poly PBeam.default)
        = .error "PolychromaticBeam has no fixed s0"
  ∧ AnyBeam.get_s0_at_scan_points (.poly PBeam.default)
        = .error "PolychromaticBeam has no fixed s0"
  ∧ AnyBeam.get_s0_at_scan_point (.poly PBeam.default) 0
        = .error "PolychromaticBeam has no fixed s0"
  ∧ AnyBeam.set_s0_at_scan_points (.poly PBeam.default) []
        = .error "PolychromaticBeam has no fixed s0"
  ∧ AnyBeam.reset_scan_points (.poly PBeam.default)
        = .error "PolychromaticBeam has no fixed s0"
  ∧ AnyBeam.get_unit_s0 (.poly PBeam.default)
        = PBeam.default.direction.neg
  ∧ AnyBeam.set_unit_s0 (.poly PBeam.default) ⟨0, 0, 1⟩
        = .ok (.poly { PBeam.default with
                       direction := (Vec3.normalize ⟨0, 0, 1⟩).neg }) :=
  poly_unsupported_operations PBeam.default ⟨0, 0, 1⟩ 1 [] 0
    (by rw [length_e3]; norm_num)

end DxtbxModel
